import Mathlib

/-!
Shallow embedding of `main.py` (DWG/DXF extractor HTTP service) and proofs
about its specification claims.

Conventions of the embedding:
* File contents are byte lists (`List Nat`, each entry a byte value).
* Python `float` arithmetic is idealised as exact arithmetic over `ℚ`
  (and `ℝ` for the square root in `Vec3.distance`); Python's `round`
  (banker's rounding, round-half-to-even) is modelled exactly.
* The external parser `ezdxf.readfile` is a parameter of the request
  handler (`ParseOutcome`): it can succeed with a model-space entity
  list, raise `DXFStructureError`, or raise any other exception.
* Filesystem and HTTP effects are tracked explicitly in an `Effects`
  record (temporary-file lifecycle, whether a parse was attempted).
-/

set_option maxRecDepth 10000

/-! ### Byte and string utilities -/

/-- Does the byte list `hay` start with `needle`?  Models `bytes.startswith`. -/
def startsWithBytes : List Nat → List Nat → Bool
  | _, [] => true
  | [], _ :: _ => false
  | a :: as, b :: bs => a == b && startsWithBytes as bs

/-- Does the character list `hay` start with `needle`? -/
def startsWithCh : List Char → List Char → Bool
  | _, [] => true
  | [], _ :: _ => false
  | a :: as, b :: bs => a == b && startsWithCh as bs

/-- Is `needle` a contiguous subsequence of `hay`?  Models Python's
`needle in hay` on strings (via their character lists). -/
def containsSeq : List Char → List Char → Bool
  | [], needle => startsWithCh [] needle
  | a :: as, needle => startsWithCh (a :: as) needle || containsSeq as needle

/-- Models Python `sub in s` for strings. -/
def strContains (s sub : String) : Bool :=
  containsSeq s.data sub.data

/-- Models `bytes.decode("ascii", errors="ignore")`: bytes `≥ 0x80` are
dropped, the rest become their ASCII characters.  When every byte is
`< 0x80` this coincides with the strict `decode("ascii")`. -/
def decodeAsciiIgnore (bs : List Nat) : String :=
  String.mk ((bs.filter (fun b => decide (b < 128))).map (fun b => Char.ofNat b))

/-- Association-list lookup with string keys (Python `dict.get`). -/
def lookupTbl : List (String × String) → String → Option String
  | [], _ => none
  | (k, v) :: rest, key => if k = key then some v else lookupTbl rest key

/-! ### Format sniffer (`detect_file_format`, main.py lines 24-55) -/

/-- The `versions` dict of `detect_file_format`. -/
def versionTable : List (String × String) :=
  [("AC1032", "AutoCAD 2018-2021"),
   ("AC1027", "AutoCAD 2013-2017"),
   ("AC1024", "AutoCAD 2010-2012"),
   ("AC1021", "AutoCAD 2007-2009"),
   ("AC1018", "AutoCAD 2004-2006")]

/-- Result dict of `detect_file_format`. -/
structure FormatInfo where
  is_dxf : Bool
  is_dwg : Bool
  version : String
  file_size : Nat
  deriving DecidableEq

/-- Model of `detect_file_format(file_path)`, applied to the bytes stored
in the file.  `header = f.read(100)`; the first 50 bytes are decoded as strict
ASCII (any byte `≥ 0x80` raises, caught by the bare `except`, giving
`is_dxf = False`); `is_dwg = header.startswith(b"AC")` (bytes 0x41 0x43);
the version is `versions.get(header[0:6].decode("ascii", errors="ignore"),
that code itself)` when `is_dwg`, else `"Unknown"`;
`file_size = os.path.getsize(file_path)`. -/
def detect_file_format (content : List Nat) : FormatInfo :=
  let header := content.take 100
  let text50 := header.take 50
  let is_dxf :=
    if text50.all (fun b => decide (b < 128)) then
      -- strict ASCII decode succeeded; on all-ASCII input the
      -- errors="ignore" decoder gives the same string
      let text := decodeAsciiIgnore text50
      strContains text "0\n" || strContains text "SECTION" || strContains text "HEADER"
    else false
  let is_dwg := startsWithBytes header [65, 67]
  let version :=
    if is_dwg then
      let code := decodeAsciiIgnore (header.take 6)
      (lookupTbl versionTable code).getD code
    else "Unknown"
  ⟨is_dxf, is_dwg, version, content.length⟩

/-! ### Python rounding over exact rationals -/

/-- Round a rational to the nearest integer, ties to even
(the rounding used by Python's `round`). -/
def rndHalfEven (q : ℚ) : ℤ :=
  if q - ⌊q⌋ < 1/2 then ⌊q⌋
  else if 1/2 < q - ⌊q⌋ then ⌊q⌋ + 1
  else if ⌊q⌋ % 2 = 0 then ⌊q⌋ else ⌊q⌋ + 1

/-- Python `round(q, nd)` over exact rationals. -/
def pyRound (nd : ℕ) (q : ℚ) : ℚ :=
  (rndHalfEven (q * 10 ^ nd) : ℚ) / 10 ^ nd

/-- Round a real to the nearest integer, ties to even.  Spec-side mirror of
`rndHalfEven` used to state what "rounded to 4 decimal places" means for
irrational values (square roots, π·r²). -/
noncomputable def roundHalfEvenR (x : ℝ) : ℤ :=
  if x - ⌊x⌋ < 1/2 then ⌊x⌋
  else if 1/2 < x - ⌊x⌋ then ⌊x⌋ + 1
  else if ⌊x⌋ % 2 = 0 then ⌊x⌋ else ⌊x⌋ + 1

/-! ### Geometry -/

/-- A 3-component point (`ezdxf` `Vec3`); `list(v)` serialises it as
`[x, y, z]`. -/
structure Vec3 where
  x : ℚ
  y : ℚ
  z : ℚ
  deriving DecidableEq

/-- Squared Euclidean distance between two points.  `Vec3.distance` in
`ezdxf` is its real square root. -/
def dsq (p q : Vec3) : ℚ :=
  (p.x - q.x) ^ 2 + (p.y - q.y) ^ 2 + (p.z - q.z) ^ 2

/-- Helper for `nearestSqrt`: decide between the floor `n` of the square
root of `q` and `n + 1` by comparing `q` with `(n + 1/2)^2 = n^2 + n + 1/4`,
ties to even. -/
def sqNear (q : ℚ) (n : ℕ) : ℤ :=
  if q < (n : ℚ) ^ 2 + n + 1/4 then n
  else if (n : ℚ) ^ 2 + n + 1/4 < q then n + 1
  else if (n : ℤ) % 2 = 0 then n else n + 1

/-- The integer nearest to `√q` (for `0 ≤ q`), ties to even — computable.
`nearestSqrt_eq_roundSqrt` proves it equal to `roundHalfEvenR (Real.sqrt q)`. -/
def nearestSqrt (q : ℚ) : ℤ :=
  sqNear q (Nat.sqrt ⌊q⌋.toNat)

/-- Computable exact model of Python `round(math_sqrt(d), 4)` for a
rational `d ≥ 0`: the multiple of `10⁻⁴` nearest to `√d` (ties to even).
`roundedSqrt4_spec` proves it equals the half-even rounding of the real
square root to 4 decimal places, which is how line lengths are produced
(`round(start.distance(end), 4)`, main.py line 194). -/
def roundedSqrt4 (d : ℚ) : ℚ :=
  (nearestSqrt (10 ^ 8 * d) : ℚ) / 10 ^ 4

/-- The rational constant `3.14159` used for circle areas
(main.py line 200) — note: not `math.pi`. -/
def piApprox : ℚ := 314159 / 100000

/-! ### Entities and per-entity extraction (main.py lines 180-248) -/

/-- The DXF attributes an entity exposes to the extractor.  `plain`
models an entity exposing none of the attributes the dispatch reads;
when the entity's type tag has a dedicated branch, attrs mismatched with
that branch (including `plain`) model an attribute access that raises
inside the per-entity `try` block — the malformed-entity case. -/
inductive EntityAttrs
  | line (startPt endPt : Vec3)
  | circle (center : Vec3) (radius : ℚ)
  | arc (center : Vec3) (radius startAngle endAngle : ℚ)
  | text (contents : String) (insert : Vec3) (height : ℚ)
  | mtext (contents : String) (insert : Vec3)
  | lwpolyline (points : List (List ℚ)) (closed : Bool)
  | polyline (vertexLocations : List Vec3) (closed : Bool)
  | spline (degree : ℤ) (controlPointCount : Nat)
  | plain
  deriving DecidableEq

/-- One model-space entity: its `dxftype()` tag, its `dxf.layer`, and its
attributes. -/
structure DxfEntity where
  kind : String
  layer : String
  attrs : EntityAttrs
  deriving DecidableEq

/-- The `entity_data` dict built for one entity, by `dxftype()` tag. -/
inductive EntityData
  | line (startPt endPt : Vec3) (length : ℚ)
  | circle (center : Vec3) (radius area : ℚ)
  | arc (center : Vec3) (radius startAngle endAngle : ℚ)
  | text (contents : String) (insert : Vec3) (height : ℚ)
  | mtext (contents : String) (insert : Vec3)
  | lwpolyline (points : List (List ℚ)) (closed : Bool) (pointCount : Nat)
  | polyline (points : List Vec3) (closed : Bool) (pointCount : Nat)
  | spline (degree : ℤ) (controlPointCount : Nat)
  | other (typeTag : String)
  deriving DecidableEq

/-- One element of the response's `elements` list:
`{"kind": kind, "layer": layer, "data": entity_data}`. -/
structure ExtractedElement where
  kind : String
  layer : String
  data : EntityData
  deriving DecidableEq

/-- The entity-type tags with a dedicated branch in the dispatch chain. -/
def supportedKinds : List String :=
  ["LINE", "CIRCLE", "ARC", "TEXT", "MTEXT", "LWPOLYLINE", "POLYLINE", "SPLINE"]

/-- The body of the per-entity `try` block (main.py lines 189-242):
either the `entity_data` dict, or `none` when an attribute access raises
(the `except` at line 246 then skips the entity).  The final `else`
branch reads no attributes, so it never raises. -/
def extractData (kind : String) (attrs : EntityAttrs) : Option EntityData :=
  if kind = "LINE" then
    match attrs with
    | .line s e => some (.line s e (roundedSqrt4 (dsq s e)))
    | _ => none
  else if kind = "CIRCLE" then
    match attrs with
    | .circle c r => some (.circle c (pyRound 4 r) (pyRound 4 (piApprox * r ^ 2)))
    | _ => none
  else if kind = "ARC" then
    match attrs with
    | .arc c r sa ea => some (.arc c (pyRound 4 r) (pyRound 2 sa) (pyRound 2 ea))
    | _ => none
  else if kind = "TEXT" then
    match attrs with
    | .text t ins h => some (.text t ins (pyRound 4 h))
    | _ => none
  else if kind = "MTEXT" then
    match attrs with
    | .mtext t ins => some (.mtext t ins)
    | _ => none
  else if kind = "LWPOLYLINE" then
    match attrs with
    | .lwpolyline pts closed => some (.lwpolyline pts closed pts.length)
    | _ => none
  else if kind = "POLYLINE" then
    match attrs with
    | .polyline locs closed => some (.polyline locs closed locs.length)
    | _ => none
  else if kind = "SPLINE" then
    match attrs with
    | .spline deg cpc => some (.spline deg cpc)
    | _ => none
  else
    some (.other kind)

/-- Process one entity: on success the element appended to `results`,
`none` when the entity was skipped by the `except` branch. -/
def extractOne (e : DxfEntity) : Option ExtractedElement :=
  (extractData e.kind e.attrs).map (fun d => ⟨e.kind, e.layer, d⟩)

/-- Model of `entity_stats[kind] = entity_stats.get(kind, 0) + 1` on an
insertion-ordered association list (Python dict). -/
def bumpStat (stats : List (String × Nat)) (k : String) : List (String × Nat) :=
  match stats with
  | [] => [(k, 1)]
  | (k', n) :: rest => if k' = k then (k', n + 1) :: rest else (k', n) :: bumpStat rest k

/-- The `for entity in msp` loop (main.py lines 180-248): every entity
bumps `entity_stats`; entities whose extraction raises are skipped,
everything else is appended to `results` in traversal order. -/
def extractLoop : List DxfEntity → List (String × Nat) → List (String × Nat) × List ExtractedElement
  | [], stats => (stats, [])
  | e :: rest, stats =>
    let r := extractLoop rest (bumpStat stats e.kind)
    match extractOne e with
    | some el => (r.1, el :: r.2)
    | none => (r.1, r.2)

/-- The final `results` list for a document's model-space entities. -/
def extractAll (doc : List DxfEntity) : List ExtractedElement :=
  (extractLoop doc []).2

/-- The final `entity_stats` dict for a document's model-space entities. -/
def statsOf (doc : List DxfEntity) : List (String × Nat) :=
  (extractLoop doc []).1

/-- Value stored for key `k` (Python `dict` access, 0 when absent). -/
def statLookup : List (String × Nat) → String → Nat
  | [], _ => 0
  | (k', n) :: rest, k => if k' = k then n else statLookup rest k

/-- Sum of all per-type counts. -/
def statsSum (stats : List (String × Nat)) : Nat :=
  (stats.map (fun p => p.2)).sum

/-! ### HTTP surface (`extract_dwg`, main.py lines 83-273) -/

/-- A multipart upload: declared filename and raw bytes. -/
structure UploadFile where
  filename : String
  content : List Nat
  deriving DecidableEq

/-- What `ezdxf.readfile` does on this request's bytes: succeed with the
model-space entity list, raise `DXFStructureError`, or raise any other
exception.  The parser is external, so the handler is parameterised by it. -/
inductive ParseOutcome
  | ok (doc : List DxfEntity)
  | structureError (msg : String)
  | readError (msg : String)
  deriving DecidableEq

/-- One option of the `how_to_convert` dict in the DWG-rejection body. -/
structure ConvertOption where
  name : String
  url : Option String
  steps : List String
  note : Option String
  deriving DecidableEq

/-- The `how_to_convert` conversion instructions (main.py lines 120-145). -/
def howToConvert : List ConvertOption :=
  [⟨"AutoCAD/BricsCAD", none,
    ["1. Abre el archivo DWG", "2. File → Save As", "3. Elige formato: DXF",
     "4. Tipo: ASCII (no Binary)", "5. Versión: AutoCAD 2013 o superior"], none⟩,
   ⟨"LibreCAD (gratis)", some "https://librecad.org/",
    ["1. Descarga LibreCAD (gratis)", "2. File → Open → selecciona tu DWG",
     "3. File → Save As → formato DXF"], none⟩,
   ⟨"Convertidor online", some "https://www.zamzar.com/convert/dwg-to-dxf/",
    [], some "Sube tu DWG y descarga el DXF"⟩]

/-- The JSON body of each possible response of `POST /extract`. -/
inductive Payload
  | noFile (detail : String)
  | emptyFile (detail : String)
  | dwgRejected (error message detected_format detected_version : String)
      (how_to_convert : List ConvertOption)
  | structureError (error message suggestion : String)
  | readError (error message suggestion : String)
  | success (file_name file_format : String) (file_size_bytes total_entities : Nat)
      (entity_statistics : List (String × Nat)) (elements : List ExtractedElement)
  deriving DecidableEq

/-- Observable side effects of one request.
`tempCreated`: `NamedTemporaryFile(delete=False, ...)` created a file on
disk for this request.  `tempRemains`: that file still exists after the
`finally` block ran (the `finally` unlinks only when `temp_path` was
assigned, which happens at line 104 *after* the empty-body check at
line 100).  `parseAttempted`: `ezdxf.readfile` was invoked. -/
structure Effects where
  tempCreated : Bool
  tempRemains : Bool
  parseAttempted : Bool
  deriving DecidableEq

/-- HTTP status, body and side effects of one `POST /extract` request. -/
structure HandlerResult where
  status : Nat
  payload : Payload
  fx : Effects
  deriving DecidableEq

/-- The `POST /extract` handler (main.py lines 83-273).

Path by path:
* no `file` field → `HTTPException(400)` before any temp file is created;
* empty body → the temp file has already been created (`delete=False`)
  but `temp_path` is still `None`, so the `finally` block does not remove
  it: the temp file remains on disk;
* `is_dwg and not is_dxf` → 400 with conversion instructions, no parse;
* otherwise `ezdxf.readfile` runs: `DXFStructureError` → 400, any other
  exception → 400, success → the extraction loop and a 200 response.
On every path that reaches `temp_path = tmp.name` the `finally` block
unlinks the file, so `tempRemains = false` there. -/
def extract_dwg (file : Option UploadFile) (parse : ParseOutcome) : HandlerResult :=
  match file with
  | none => ⟨400, .noFile "No se recibió ningún archivo", ⟨false, false, false⟩⟩
  | some f =>
    if f.content.length = 0 then
      ⟨400, .emptyFile "El archivo está vacío", ⟨true, true, false⟩⟩
    else
      let info := detect_file_format f.content
      if info.is_dwg && !info.is_dxf then
        ⟨400,
         .dwgRejected "Archivo DWG no soportado" "Este servicio solo acepta archivos DXF"
           "DWG" info.version howToConvert,
         ⟨true, false, false⟩⟩
      else
        match parse with
        | .structureError msg =>
          ⟨400,
           .structureError "Archivo DXF corrupto o inválido" msg
             "Intenta guardar el archivo nuevamente desde AutoCAD",
           ⟨true, false, true⟩⟩
        | .readError msg =>
          ⟨400,
           .readError "No se pudo leer el archivo" msg
             "Asegúrate de que sea un archivo DXF válido (ASCII, no Binary)",
           ⟨true, false, true⟩⟩
        | .ok doc =>
          let r := extractLoop doc []
          ⟨200,
           .success f.filename "DXF" info.file_size r.2.length r.1 r.2,
           ⟨true, false, true⟩⟩

/-- The `elements` list of a response body (empty for non-success bodies). -/
def elementsOf : Payload → List ExtractedElement
  | .success _ _ _ _ _ els => els
  | _ => []

/-! ### Helper lemmas -/

lemma startsWithBytes_take {l p : List Nat} (h : startsWithBytes l p = true) :
    l.take p.length = p := by
  induction p generalizing l with
  | nil => simp
  | cons b bs ih =>
    cases l with
    | nil => simp [startsWithBytes] at h
    | cons a as =>
      simp only [startsWithBytes, Bool.and_eq_true, beq_iff_eq] at h
      obtain ⟨h1, h2⟩ := h
      simp [List.take, h1, ih h2]

lemma startsWithBytes_ne_nil {l p : List Nat} (hp : p ≠ [])
    (h : startsWithBytes l p = true) : l ≠ [] := by
  intro hl
  subst hl
  cases p with
  | nil => exact hp rfl
  | cons b bs => simp [startsWithBytes] at h

/-! ### C6: zero-byte upload -/

/-- C6: uploading a zero-byte file to `/extract` returns HTTP 400
("El archivo está vacío") and the document loader is never invoked for
that request, whatever it would have returned. -/
theorem C6_empty_file_rejected (fn : String) (parse : ParseOutcome) :
    (extract_dwg (some ⟨fn, []⟩) parse).status = 400
    ∧ (extract_dwg (some ⟨fn, []⟩) parse).payload = Payload.emptyFile "El archivo está vacío"
    ∧ (extract_dwg (some ⟨fn, []⟩) parse).fx.parseAttempted = false :=
  ⟨rfl, rfl, rfl⟩

/-! ### C2: temporary-file lifecycle -/

/-- C2: for every request carrying a file, the temporary file is created,
and it remains on disk after the request exactly when the upload was
empty: on the empty-upload validation failure the `HTTPException` at
main.py line 101 fires while `temp_path` is still `None` (it is assigned
only at line 104), so the `finally` block at lines 268-273 does not
unlink the file that `NamedTemporaryFile(delete=False)` already created.
Every other exit path removes it. -/
theorem C2_temp_file_remains_iff_empty (fn : String) (content : List Nat)
    (parse : ParseOutcome) :
    (extract_dwg (some ⟨fn, content⟩) parse).fx.tempCreated = true
    ∧ (extract_dwg (some ⟨fn, content⟩) parse).fx.tempRemains = content.isEmpty := by
  cases content with
  | nil => exact ⟨rfl, rfl⟩
  | cons b bs =>
    have h : (b :: bs).length ≠ 0 := by simp
    rcases Bool.eq_false_or_eq_true
        ((detect_file_format (b :: bs)).is_dwg && !(detect_file_format (b :: bs)).is_dxf)
        with hc | hc <;>
      cases parse <;> simp [extract_dwg, h, hc]

/-! ### C4: binary DWG rejection -/

/-- C4: every upload classified as binary DWG (header starts with `AC`,
not classified as text) gets a 400 response whose body carries the
detected format `"DWG"`, the detected version, and the human-readable
conversion instructions, and no parse is attempted. -/
theorem C4_dwg_rejected (fn : String) (content : List Nat) (parse : ParseOutcome)
    (hdwg : (detect_file_format content).is_dwg = true)
    (hnotdxf : (detect_file_format content).is_dxf = false) :
    (extract_dwg (some ⟨fn, content⟩) parse).status = 400
    ∧ (extract_dwg (some ⟨fn, content⟩) parse).payload
        = Payload.dwgRejected "Archivo DWG no soportado"
            "Este servicio solo acepta archivos DXF" "DWG"
            (detect_file_format content).version howToConvert
    ∧ (extract_dwg (some ⟨fn, content⟩) parse).fx.parseAttempted = false := by
  have hne : content.length ≠ 0 := by
    intro h0
    rw [List.length_eq_zero] at h0
    subst h0
    simp [detect_file_format, startsWithBytes] at hdwg
  refine ⟨?_, ?_, ?_⟩ <;> simp [extract_dwg, hne, hdwg, hnotdxf]

/-- Witness for C4 at the concrete binary header `b"AC1027"`. -/
theorem C4_witness :
    (extract_dwg (some ⟨"plano.dwg", [65, 67, 49, 48, 50, 55]⟩)
        (ParseOutcome.structureError "boom")).status = 400
    ∧ (extract_dwg (some ⟨"plano.dwg", [65, 67, 49, 48, 50, 55]⟩)
        (ParseOutcome.structureError "boom")).payload
        = Payload.dwgRejected "Archivo DWG no soportado"
            "Este servicio solo acepta archivos DXF" "DWG"
            (detect_file_format [65, 67, 49, 48, 50, 55]).version howToConvert
    ∧ (extract_dwg (some ⟨"plano.dwg", [65, 67, 49, 48, 50, 55]⟩)
        (ParseOutcome.structureError "boom")).fx.parseAttempted = false :=
  C4_dwg_rejected "plano.dwg" [65, 67, 49, 48, 50, 55]
    (ParseOutcome.structureError "boom") (by decide) (by decide)

/-! ### C5: version sniffing -/

/-- The version mapping as claim C5 literally words it: the six bytes
*following* the two-byte `AC` marker (header bytes 2..8) are decoded and
looked up in the version table, unknown codes passing through verbatim.
Refinement comparison target only — the code instead uses `header[0:6]`. -/
def claimVersionAfterMarker (content : List Nat) : String :=
  let code := decodeAsciiIgnore (((content.take 100).drop 2).take 6)
  (lookupTbl versionTable code).getD code

/-- Counterexample to C5 as stated: on the header bytes `"ACAC1027"` the
claim's mapping (six bytes after the marker = `"AC1027"`, a known code)
would give `"AutoCAD 2013-2017"`, but the code looks up `header[0:6]`
= `"ACAC10"`, an unknown code passed through verbatim. -/
theorem C5_counterexample :
    (detect_file_format [65, 67, 65, 67, 49, 48, 50, 55]).is_dwg = true
    ∧ claimVersionAfterMarker [65, 67, 65, 67, 49, 48, 50, 55] = "AutoCAD 2013-2017"
    ∧ (detect_file_format [65, 67, 65, 67, 49, 48, 50, 55]).version = "ACAC10"
    ∧ (detect_file_format [65, 67, 65, 67, 49, 48, 50, 55]).version
        ≠ claimVersionAfterMarker [65, 67, 65, 67, 49, 48, 50, 55] := by
  decide

/-- C5 (amended): a header starting with the marker `AC` is classified as
a binary drawing, and the *first six header bytes* (the marker plus the
following four bytes) are decoded (`errors="ignore"`) and mapped through
the fixed 5-entry lookup table, unknown codes passing through verbatim
(`dict.get(code, code)`); in particular a header starting with `AC1027`
gives version `"AutoCAD 2013-2017"`. -/
theorem C5_version_from_first6 (content : List Nat)
    (hAC : startsWithBytes (content.take 100) [65, 67] = true) :
    (detect_file_format content).is_dwg = true
    ∧ versionTable.length = 5
    ∧ (detect_file_format content).version
        = (lookupTbl versionTable (decodeAsciiIgnore ((content.take 100).take 6))).getD
            (decodeAsciiIgnore ((content.take 100).take 6))
    ∧ (startsWithBytes content [65, 67, 49, 48, 50, 55] = true →
        (detect_file_format content).version = "AutoCAD 2013-2017") := by
  refine ⟨by simp [detect_file_format, hAC], rfl, by simp [detect_file_format, hAC], ?_⟩
  intro h6
  have ht : content.take 6 = [65, 67, 49, 48, 50, 55] := by
    simpa using startsWithBytes_take h6
  have htt : (content.take 100).take 6 = content.take 6 := by
    rw [List.take_take]
    norm_num
  simp [detect_file_format, hAC, htt, ht]
  decide

/-- Witness for C5 at the concrete header `b"AC1027"`. -/
theorem C5_witness :
    (detect_file_format [65, 67, 49, 48, 50, 55]).version = "AutoCAD 2013-2017" :=
  (C5_version_from_first6 [65, 67, 49, 48, 50, 55] (by decide)).2.2.2 (by decide)

/-! ### C10: file that is both DWG-marked and DXF text -/

/-- C10: an upload whose header starts with `AC` *and* whose first 50
bytes are ASCII containing one of the text markers is classified as both
DWG and DXF; the rejection branch (which needs `is_dwg and not is_dxf`)
is skipped, and the handler proceeds to attempt the DXF parse. -/
theorem C10_dwg_and_dxf_parses (fn : String) (content : List Nat) (parse : ParseOutcome)
    (hAC : startsWithBytes (content.take 100) [65, 67] = true)
    (hascii : ((content.take 100).take 50).all (fun b => decide (b < 128)) = true)
    (hmark : (strContains (decodeAsciiIgnore ((content.take 100).take 50)) "0\n"
        || strContains (decodeAsciiIgnore ((content.take 100).take 50)) "SECTION"
        || strContains (decodeAsciiIgnore ((content.take 100).take 50)) "HEADER") = true) :
    (detect_file_format content).is_dwg = true
    ∧ (detect_file_format content).is_dxf = true
    ∧ (extract_dwg (some ⟨fn, content⟩) parse).fx.parseAttempted = true := by
  have hne : content.length ≠ 0 := by
    intro h0
    rw [List.length_eq_zero] at h0
    subst h0
    simp [startsWithBytes] at hAC
  have hdwg : (detect_file_format content).is_dwg = true := by
    simp [detect_file_format, hAC]
  have hdxf : (detect_file_format content).is_dxf = true := by
    simp [detect_file_format, hascii, hmark]
  refine ⟨hdwg, hdxf, ?_⟩
  cases parse <;> simp [extract_dwg, hne, hdwg, hdxf]

/-- Witness for C10 at the concrete header `b"ACSECTION"`. -/
theorem C10_witness :
    (detect_file_format [65, 67, 83, 69, 67, 84, 73, 79, 78]).is_dwg = true
    ∧ (detect_file_format [65, 67, 83, 69, 67, 84, 73, 79, 78]).is_dxf = true
    ∧ (extract_dwg (some ⟨"mixed.dxf", [65, 67, 83, 69, 67, 84, 73, 79, 78]⟩)
        (ParseOutcome.ok [])).fx.parseAttempted = true :=
  C10_dwg_and_dxf_parses "mixed.dxf" [65, 67, 83, 69, 67, 84, 73, 79, 78]
    (ParseOutcome.ok []) (by decide) (by decide) (by decide)

/-! ### Extraction-loop lemmas -/

lemma extractLoop_snd (doc : List DxfEntity) (stats : List (String × Nat)) :
    (extractLoop doc stats).2 = doc.filterMap extractOne := by
  induction doc generalizing stats with
  | nil => rfl
  | cons e rest ih =>
    simp only [extractLoop, List.filterMap]
    cases h : extractOne e <;> simp [h, ih]

lemma extractLoop_fst (doc : List DxfEntity) (stats : List (String × Nat)) :
    (extractLoop doc stats).1 = doc.foldl (fun st e => bumpStat st e.kind) stats := by
  induction doc generalizing stats with
  | nil => rfl
  | cons e rest ih =>
    simp only [extractLoop, List.foldl]
    cases h : extractOne e <;> simp [h, ih]

lemma extractAll_eq_filterMap (doc : List DxfEntity) :
    extractAll doc = doc.filterMap extractOne :=
  extractLoop_snd doc []

/-- Length bookkeeping of the loop: elements produced plus entities
skipped equals entities seen. -/
lemma length_filterMap_add_skipped (doc : List DxfEntity) :
    (doc.filterMap extractOne).length
      + (doc.filter (fun e => (extractOne e).isNone)).length = doc.length := by
  induction doc with
  | nil => rfl
  | cons e rest ih =>
    cases h : extractOne e <;>
      simp [List.filterMap_cons, List.filter_cons, h, ih, Nat.succ_eq_add_one] <;> omega

/-! ### Stats lemmas -/

lemma statLookup_bumpStat (stats : List (String × Nat)) (k k' : String) :
    statLookup (bumpStat stats k) k'
      = statLookup stats k' + (if k = k' then 1 else 0) := by
  induction stats with
  | nil => simp [bumpStat, statLookup]
  | cons p rest ih =>
    obtain ⟨a, n⟩ := p
    by_cases hak : a = k
    · subst hak
      by_cases hak' : a = k' <;> simp [bumpStat, statLookup, hak']
    · by_cases hak' : a = k'
      · subst hak'
        have hka : ¬(k = a) := fun h => hak h.symm
        simp [bumpStat, statLookup, hak, hka]
      · simp [bumpStat, statLookup, hak, hak', ih]

lemma statsSum_bumpStat (stats : List (String × Nat)) (k : String) :
    statsSum (bumpStat stats k) = statsSum stats + 1 := by
  induction stats with
  | nil => rfl
  | cons p rest ih =>
    obtain ⟨a, n⟩ := p
    by_cases hak : a = k
    · simp only [bumpStat, if_pos hak, statsSum, List.map_cons, List.sum_cons]
      omega
    · simp only [bumpStat, if_neg hak, statsSum, List.map_cons, List.sum_cons]
      simp only [statsSum] at ih
      omega

lemma statLookup_foldl (doc : List DxfEntity) (stats : List (String × Nat)) (k : String) :
    statLookup (doc.foldl (fun st e => bumpStat st e.kind) stats) k
      = statLookup stats k + (doc.filter (fun e => decide (e.kind = k))).length := by
  induction doc generalizing stats with
  | nil => simp
  | cons e rest ih =>
    simp only [List.foldl, List.filter_cons]
    by_cases hk : e.kind = k
    · simp [hk, ih, statLookup_bumpStat]
      omega
    · simp [hk, ih, statLookup_bumpStat]

lemma statsSum_foldl (doc : List DxfEntity) (stats : List (String × Nat)) :
    statsSum (doc.foldl (fun st e => bumpStat st e.kind) stats)
      = statsSum stats + doc.length := by
  induction doc generalizing stats with
  | nil => simp
  | cons e rest ih =>
    simp only [List.foldl, List.length_cons]
    rw [ih, statsSum_bumpStat]
    omega

/-! ### C9: entity statistics are independent of extraction filtering -/

/-- C9: `entity_stats` counts every model-space entity by its type tag
(`entity_stats[kind] += 1` runs before the `try` block), so entities
whose extraction raises are still counted; the sum of all counts equals
the number of entities and is therefore at least the number of extracted
elements. -/
theorem C9_stats_count_every_entity (doc : List DxfEntity) :
    (∀ k : String,
        statLookup (statsOf doc) k = (doc.filter (fun e => decide (e.kind = k))).length)
    ∧ statsSum (statsOf doc) = doc.length
    ∧ (extractAll doc).length ≤ statsSum (statsOf doc) := by
  have hs : statsOf doc = doc.foldl (fun st e => bumpStat st e.kind) [] :=
    extractLoop_fst doc []
  refine ⟨?_, ?_, ?_⟩
  · intro k
    rw [hs, statLookup_foldl]
    simp [statLookup]
  · rw [hs, statsSum_foldl]
    simp [statsSum]
  · rw [extractAll_eq_filterMap, hs, statsSum_foldl]
    have := length_filterMap_add_skipped doc
    simp only [statsSum, List.map_nil, List.sum_nil]
    omega

/-! ### C3: a single malformed entity is skipped, not fatal -/

/-- C3: when the parse succeeds and exactly one model-space entity
raises during field extraction, the request still returns HTTP 200 and
the response carries exactly N-1 extracted elements. -/
theorem C3_one_malformed_entity_skipped (fn : String) (content : List Nat)
    (doc : List DxfEntity)
    (hne : content.length ≠ 0)
    (hnd : ((detect_file_format content).is_dwg
        && !(detect_file_format content).is_dxf) = false)
    (hone : (doc.filter (fun e => (extractOne e).isNone)).length = 1) :
    (extract_dwg (some ⟨fn, content⟩) (ParseOutcome.ok doc)).status = 200
    ∧ (elementsOf (extract_dwg (some ⟨fn, content⟩) (ParseOutcome.ok doc)).payload).length
        = doc.length - 1 := by
  constructor
  · simp [extract_dwg, hne, hnd]
  · have hlen := length_filterMap_add_skipped doc
    simp only [extract_dwg, if_neg hne, hnd, Bool.false_eq_true, if_false, elementsOf,
      extractLoop_snd]
    omega

/-- Witness for C3: a document with one malformed LINE (its attribute
access raises) and one well-formed CIRCLE yields HTTP 200 with exactly
one element. -/
theorem C3_witness :
    (extract_dwg (some ⟨"plan.dxf", [48, 10]⟩)
        (ParseOutcome.ok
          [⟨"LINE", "0", EntityAttrs.plain⟩,
           ⟨"CIRCLE", "0", EntityAttrs.circle ⟨0, 0, 0⟩ 1⟩])).status = 200
    ∧ (elementsOf (extract_dwg (some ⟨"plan.dxf", [48, 10]⟩)
        (ParseOutcome.ok
          [⟨"LINE", "0", EntityAttrs.plain⟩,
           ⟨"CIRCLE", "0", EntityAttrs.circle ⟨0, 0, 0⟩ 1⟩])).payload).length = 1 := by
  have h := C3_one_malformed_entity_skipped "plan.dxf" [48, 10]
    [⟨"LINE", "0", EntityAttrs.plain⟩, ⟨"CIRCLE", "0", EntityAttrs.circle ⟨0, 0, 0⟩ 1⟩]
    (by decide) (by decide) (by decide)
  simpa using h

/-! ### C1: unsupported entity types in the output -/

lemma extractData_unsupported {kind : String} (attrs : EntityAttrs)
    (h : kind ∉ supportedKinds) :
    extractData kind attrs = some (EntityData.other kind) := by
  simp only [supportedKinds, List.mem_cons, List.not_mem_nil, or_false, not_or] at h
  obtain ⟨h1, h2, h3, h4, h5, h6, h7, h8⟩ := h
  simp [extractData, h1, h2, h3, h4, h5, h6, h7, h8]

lemma extractOne_unsupported {e : DxfEntity} (h : e.kind ∉ supportedKinds) :
    extractOne e = some ⟨e.kind, e.layer, EntityData.other e.kind⟩ := by
  simp [extractOne, extractData_unsupported e.attrs h]

/-- Counterexample to C1 as stated: a document containing one entity of
the unsupported type `POINT` produces a response whose `elements` list
contains that entity (with stub data), so an `ExtractedElement` whose
type is *not* in the supported set appears in the output — unsupported
types are not omitted. -/
theorem C1_counterexample :
    elementsOf (extract_dwg (some ⟨"f.dxf", [48, 10]⟩)
        (ParseOutcome.ok [⟨"POINT", "0", EntityAttrs.plain⟩])).payload
      = [⟨"POINT", "0", EntityData.other "POINT"⟩]
    ∧ "POINT" ∉ supportedKinds := by
  decide

/-- C1 (amended): every element whose type tag is outside the supported
set carries exactly the metadata stub `data = {"type": kind}` — never
partial or null geometric data — and such entities are *included* in the
elements list (one element per unsupported entity), not omitted. -/
theorem C1_unsupported_stubbed_not_omitted :
    (∀ (doc : List DxfEntity) (el : ExtractedElement),
        el ∈ extractAll doc → el.kind ∉ supportedKinds →
        el.data = EntityData.other el.kind)
    ∧ (∀ (doc : List DxfEntity) (ent : DxfEntity),
        ent ∈ doc → ent.kind ∉ supportedKinds →
        (⟨ent.kind, ent.layer, EntityData.other ent.kind⟩ : ExtractedElement)
          ∈ extractAll doc) := by
  constructor
  · intro doc el hmem hk
    rw [extractAll_eq_filterMap, List.mem_filterMap] at hmem
    obtain ⟨a, _, hsome⟩ := hmem
    simp only [extractOne] at hsome
    cases hd : extractData a.kind a.attrs with
    | none => rw [hd] at hsome; simp at hsome
    | some d =>
      rw [hd] at hsome
      have hel : el = ⟨a.kind, a.layer, d⟩ := by
        simpa using hsome.symm
      subst hel
      rw [extractData_unsupported a.attrs hk] at hd
      have hdd : d = EntityData.other a.kind := by
        simpa using hd.symm
      simpa using hdd
  · intro doc ent hmem hk
    rw [extractAll_eq_filterMap, List.mem_filterMap]
    exact ⟨ent, hmem, by rw [extractOne_unsupported hk]⟩

/-- Witness for C1 (amended) at a concrete one-entity document. -/
theorem C1_witness :
    (⟨"POINT", "0", EntityData.other "POINT"⟩ : ExtractedElement)
      ∈ extractAll [⟨"POINT", "0", EntityAttrs.plain⟩] :=
  C1_unsupported_stubbed_not_omitted.2 [⟨"POINT", "0", EntityAttrs.plain⟩]
    ⟨"POINT", "0", EntityAttrs.plain⟩ (by decide) (by decide)

/-! ### Square-root rounding bridge -/

lemma dsq_nonneg (p q : Vec3) : 0 ≤ dsq p q := by
  unfold dsq
  positivity

lemma roundHalfEvenR_ge_floor (x : ℝ) : ⌊x⌋ ≤ roundHalfEvenR x := by
  unfold roundHalfEvenR
  split_ifs <;> omega

lemma sqNear_eq_roundSqrt (q : ℚ) (n : ℕ)
    (h1 : (n : ℚ) ^ 2 ≤ q) (h2 : q < ((n : ℚ) + 1) ^ 2) :
    sqNear q n = roundHalfEvenR (Real.sqrt (q : ℝ)) := by
  have hq0 : (0 : ℚ) ≤ q := le_trans (by positivity) h1
  have hq0R : (0 : ℝ) ≤ (q : ℝ) := by exact_mod_cast hq0
  set x := Real.sqrt (q : ℝ) with hx
  have hnx : (n : ℝ) ≤ x := by
    rw [hx, Real.le_sqrt (by positivity) hq0R]
    exact_mod_cast h1
  have hxn1 : x < (n : ℝ) + 1 := by
    rw [hx, Real.sqrt_lt' (by positivity)]
    exact_mod_cast h2
  have hfl : ⌊x⌋ = (n : ℤ) := by
    rw [Int.floor_eq_iff]
    constructor
    · exact_mod_cast hnx
    · exact_mod_cast hxn1
  have hhalfpos : (0 : ℝ) < (n : ℝ) + 1/2 := by positivity
  have keyA : (q < (n : ℚ) ^ 2 + n + 1/4) ↔ x < (n : ℝ) + 1/2 := by
    rw [hx, Real.sqrt_lt' hhalfpos,
      show ((n : ℝ) + 1/2) ^ 2 = (((n : ℚ) ^ 2 + n + 1/4 : ℚ) : ℝ) by push_cast; ring]
    exact_mod_cast Iff.rfl
  have keyB : ((n : ℚ) ^ 2 + n + 1/4 < q) ↔ (n : ℝ) + 1/2 < x := by
    rw [hx, Real.lt_sqrt hhalfpos.le,
      show ((n : ℝ) + 1/2) ^ 2 = (((n : ℚ) ^ 2 + n + 1/4 : ℚ) : ℝ) by push_cast; ring]
    exact_mod_cast Iff.rfl
  have hcast : (((n : ℤ) : ℝ)) = (n : ℝ) := by push_cast; ring
  unfold sqNear roundHalfEvenR
  rw [hfl]
  rcases lt_trichotomy q ((n : ℚ) ^ 2 + n + 1/4) with hlt | heq | hgt
  · have hr : x - ((n : ℤ) : ℝ) < 1/2 := by
      rw [hcast]
      linarith [keyA.mp hlt]
    rw [if_pos hlt, if_pos hr]
  · have hxeq : x = (n : ℝ) + 1/2 := by
      have hq : (q : ℝ) = ((n : ℝ) + 1/2) ^ 2 := by
        rw [heq]
        push_cast
        ring
      rw [hx, hq, Real.sqrt_sq hhalfpos.le]
    have hc1 : ¬(q < (n : ℚ) ^ 2 + n + 1/4) := by
      rw [heq]
      exact lt_irrefl _
    have hc2 : ¬((n : ℚ) ^ 2 + n + 1/4 < q) := by
      rw [heq]
      exact lt_irrefl _
    have hr1 : ¬(x - ((n : ℤ) : ℝ) < 1/2) := by
      rw [hcast, hxeq]
      norm_num
    have hr2 : ¬((1 : ℝ)/2 < x - ((n : ℤ) : ℝ)) := by
      rw [hcast, hxeq]
      norm_num
    rw [if_neg hc1, if_neg hc2, if_neg hr1, if_neg hr2]
  · have hr1 : ¬(x - ((n : ℤ) : ℝ) < 1/2) := by
      rw [hcast]
      linarith [keyB.mp hgt]
    have hr2 : (1 : ℝ)/2 < x - ((n : ℤ) : ℝ) := by
      rw [hcast]
      linarith [keyB.mp hgt]
    rw [if_neg (lt_asymm hgt), if_pos hgt, if_neg hr1, if_pos hr2]

lemma nearestSqrt_eq_roundSqrt (q : ℚ) (hq : 0 ≤ q) :
    nearestSqrt q = roundHalfEvenR (Real.sqrt (q : ℝ)) := by
  have hfl0 : (0 : ℤ) ≤ ⌊q⌋ := Int.floor_nonneg.mpr hq
  have htn : ((⌊q⌋.toNat : ℕ) : ℤ) = ⌊q⌋ := Int.toNat_of_nonneg hfl0
  have hmq : ((⌊q⌋.toNat : ℕ) : ℚ) ≤ q := by
    have h := Int.floor_le q
    rw [← htn] at h
    exact_mod_cast h
  have hm1 : q < ((⌊q⌋.toNat : ℕ) : ℚ) + 1 := by
    have h := Int.lt_floor_add_one q
    rw [← htn] at h
    exact_mod_cast h
  unfold nearestSqrt
  apply sqNear_eq_roundSqrt
  · calc ((Nat.sqrt ⌊q⌋.toNat : ℕ) : ℚ) ^ 2 ≤ ((⌊q⌋.toNat : ℕ) : ℚ) := by
          exact_mod_cast Nat.sqrt_le' ⌊q⌋.toNat
    _ ≤ q := hmq
  · calc q < ((⌊q⌋.toNat : ℕ) : ℚ) + 1 := hm1
    _ ≤ ((Nat.sqrt ⌊q⌋.toNat : ℕ) + 1 : ℚ) ^ 2 := by
          exact_mod_cast Nat.succ_le_succ_sqrt' ⌊q⌋.toNat

/-- The function `roundedSqrt4` is exactly "the real square root, rounded half-even to
4 decimal places". -/
theorem roundedSqrt4_spec (d : ℚ) (hd : 0 ≤ d) :
    ((roundedSqrt4 d : ℚ) : ℝ)
      = ((roundHalfEvenR (Real.sqrt (d : ℝ) * 10 ^ 4) : ℤ) : ℝ) / 10 ^ 4 := by
  have h8 : (0 : ℚ) ≤ 10 ^ 8 * d := mul_nonneg (by norm_num) hd
  have hsq : Real.sqrt ((10 ^ 8 * d : ℚ) : ℝ) = Real.sqrt (d : ℝ) * 10 ^ 4 := by
    push_cast
    rw [show ((10 : ℝ) ^ 8 * (d : ℝ)) = ((10 : ℝ) ^ 4) ^ 2 * (d : ℝ) by ring,
      Real.sqrt_mul (by positivity) _, Real.sqrt_sq (by positivity)]
    ring
  unfold roundedSqrt4
  rw [← hsq, ← nearestSqrt_eq_roundSqrt _ h8]
  push_cast
  ring

/-! ### C8: line extraction -/

lemma natSqrt_2500000000 : Nat.sqrt 2500000000 = 50000 := by
  rw [show (2500000000 : ℕ) = 50000 ^ 2 by norm_num]
  exact Nat.sqrt_eq' 50000

/-- C8: a LINE entity's data carries its start point, end point and a
length that is the Euclidean distance between the endpoints rounded
(half-even) to 4 decimal places; in particular the line from `(0,0,0)`
to `(3,4,0)` gets length `5.0`. -/
theorem C8_line_length (layer : String) (s e : Vec3) :
    extractOne ⟨"LINE", layer, EntityAttrs.line s e⟩
      = some ⟨"LINE", layer, EntityData.line s e (roundedSqrt4 (dsq s e))⟩
    ∧ ((roundedSqrt4 (dsq s e) : ℚ) : ℝ)
        = ((roundHalfEvenR (Real.sqrt ((dsq s e : ℚ) : ℝ) * 10 ^ 4) : ℤ) : ℝ) / 10 ^ 4
    ∧ roundedSqrt4 (dsq ⟨0, 0, 0⟩ ⟨3, 4, 0⟩) = 5 := by
  refine ⟨rfl, roundedSqrt4_spec _ (dsq_nonneg s e), ?_⟩
  have hd : dsq ⟨0, 0, 0⟩ ⟨3, 4, 0⟩ = 25 := by
    norm_num [dsq]
  rw [hd]
  unfold roundedSqrt4 nearestSqrt
  rw [show (10 ^ 8 * 25 : ℚ) = 2500000000 by norm_num]
  rw [show ⌊(2500000000 : ℚ)⌋ = 2500000000 by norm_num]
  rw [show ((2500000000 : ℤ)).toNat = 2500000000 by rfl]
  rw [natSqrt_2500000000]
  unfold sqNear
  rw [if_pos (by norm_num)]
  norm_num

/-! ### C7: circle extraction -/

/-- Evaluate `pyRound` when the fractional part of `q·10^nd` is below 1/2. -/
lemma pyRound_eval_lo (nd : ℕ) (q : ℚ) (f : ℤ)
    (h1 : (f : ℚ) ≤ q * 10 ^ nd) (h2 : q * 10 ^ nd < f + 1)
    (h3 : q * 10 ^ nd - f < 1/2) :
    pyRound nd q = (f : ℚ) / 10 ^ nd := by
  have hfl : ⌊q * 10 ^ nd⌋ = f := Int.floor_eq_iff.mpr ⟨h1, h2⟩
  unfold pyRound rndHalfEven
  rw [hfl, if_pos h3]

/-- Evaluate `pyRound` when the fractional part of `q·10^nd` is above 1/2. -/
lemma pyRound_eval_hi (nd : ℕ) (q : ℚ) (f : ℤ)
    (h1 : (f : ℚ) ≤ q * 10 ^ nd) (h2 : q * 10 ^ nd < f + 1)
    (h3 : 1/2 < q * 10 ^ nd - f) :
    pyRound nd q = ((f : ℚ) + 1) / 10 ^ nd := by
  have hfl : ⌊q * 10 ^ nd⌋ = f := Int.floor_eq_iff.mpr ⟨h1, h2⟩
  unfold pyRound rndHalfEven
  rw [hfl, if_neg (by linarith), if_pos h3]
  push_cast
  ring

lemma pyRound4_forty : pyRound 4 (40 : ℚ) = 40 := by
  rw [pyRound_eval_lo 4 40 400000 (by norm_num) (by norm_num) (by norm_num)]
  norm_num

lemma pyRound4_area_forty : pyRound 4 (piApprox * 40 ^ 2) = 628318 / 125 := by
  rw [pyRound_eval_lo 4 _ 50265440 (by norm_num [piApprox]) (by norm_num [piApprox])
    (by norm_num [piApprox])]
  norm_num

lemma pyRound4_area_two : pyRound 4 (piApprox * 2 ^ 2) = 125664 / 10000 := by
  rw [pyRound_eval_hi 4 _ 125663 (by norm_num [piApprox]) (by norm_num [piApprox])
    (by norm_num [piApprox])]
  norm_num

/-- Counterexample to C7 as stated: for the circle of radius `40` the
code stores `area = round(3.14159 * 40**2, 4) = 5026.544`
(`628318/125`), while `π·r²` rounded to 4 decimal places is
`5026.5482…` — the code's constant `3.14159` is not `π`, and the two
roundings differ once `r²` is large enough. -/
theorem C7_counterexample :
    extractOne ⟨"CIRCLE", "0", EntityAttrs.circle ⟨0, 0, 0⟩ 40⟩
      = some ⟨"CIRCLE", "0", EntityData.circle ⟨0, 0, 0⟩ 40 (628318/125)⟩
    ∧ ((628318/125 : ℚ) : ℝ)
        ≠ ((roundHalfEvenR (Real.pi * 40 ^ 2 * 10 ^ 4) : ℤ) : ℝ) / 10 ^ 4 := by
  constructor
  · simp [extractOne, extractData, pyRound4_forty, pyRound4_area_forty]
  · have hpi := Real.pi_gt_d6
    have hrR : (50265472 : ℝ) ≤ ((roundHalfEvenR (Real.pi * 40 ^ 2 * 10 ^ 4) : ℤ) : ℝ) := by
      have hy : (50265472 : ℝ) ≤ Real.pi * 40 ^ 2 * 10 ^ 4 := by nlinarith
      have hfl : (50265472 : ℤ) ≤ ⌊Real.pi * 40 ^ 2 * 10 ^ 4⌋ :=
        Int.le_floor.mpr (by push_cast; linarith)
      exact_mod_cast le_trans hfl (roundHalfEvenR_ge_floor _)
    apply ne_of_lt
    rw [show ((628318/125 : ℚ) : ℝ) = 628318/125 by norm_num]
    rw [lt_div_iff₀ (by norm_num : (0 : ℝ) < 10 ^ 4)]
    have hval : (628318 : ℝ)/125 * 10 ^ 4 = 50265440 := by norm_num
    rw [hval]
    exact lt_of_lt_of_le (by norm_num) hrR

/-- C7 (amended): a CIRCLE entity's data carries its center, its radius
rounded to 4 decimals, and an area computed as `3.14159 · r²` (the code's
six-digit approximation of π, not `math.pi`) rounded half-even to 4
decimal places; a circle with radius `2.0` still yields
`area = 12.5664` (`= 125664/10⁴`). -/
theorem C7_circle_area_uses_pi_approx (layer : String) (c : Vec3) (r : ℚ) :
    extractOne ⟨"CIRCLE", layer, EntityAttrs.circle c r⟩
      = some ⟨"CIRCLE", layer,
          EntityData.circle c (pyRound 4 r) (pyRound 4 (piApprox * r ^ 2))⟩
    ∧ piApprox = 314159 / 100000
    ∧ pyRound 4 (piApprox * 2 ^ 2) = 125664 / 10000 :=
  ⟨rfl, rfl, pyRound4_area_two⟩
